import Mathlib

/-!
Shallow embedding of `lumispy/utils/analysis.py` (`plot_span_map`).

Data values of the hyperspectral cube are modelled as `Option ℚ`:
`none` stands for NaN; a NaN-safe sum (`nansum`) treats `none` as `0`.
Plotting and widget calls are recorded in an effect log in source order.
The reactive wiring (span range change → re-slice → recompute span sum
in place) is modelled by an explicit state and a `setSpanRange` step.
-/

/-- A sample of the data cube; `none` models NaN. -/
abbrev Val := Option ℚ

/-- NaN-safe reading of a sample: NaN contributes `0` (numpy `nansum`). -/
def nval (v : Val) : ℚ := v.getD 0

/-- Embedding of a hyperspy signal as used by `plot_span_map`: declared axis
decomposition (`axes_manager.signal_dimension` / `navigation_dimension`),
the two navigation-axis sizes, the spectral coordinate array
(`axes_manager.signal_axes[0].axis`) and the data cube indexed by
(navigation x, navigation y, spectral channel). -/
structure Signal where
  signal_dimension : Nat
  navigation_dimension : Nat
  navX : Nat
  navY : Nat
  axis : List ℚ
  data : Nat → Nat → Nat → Val

/-- `sig.nansum()`: NaN-safe sum over both navigation (spatial) axes,
leaving a spectrum indexed by the spectral channel. -/
def nansumNav (s : Signal) (k : Nat) : ℚ :=
  ((List.range s.navX).map (fun x =>
    ((List.range s.navY).map (fun y => nval (s.data x y k))).sum)).sum

/-- Spectral channels whose coordinate lies in the half-open span
`[l, r)` — the sub-range selected by a `SpanROI`. -/
def sliceIdx (axis : List ℚ) (l r : ℚ) : List Nat :=
  (List.range axis.length).filter
    (fun k => decide (l ≤ axis.getD k 0 ∧ axis.getD k 0 < r))

/-- `span_sig.nansum(-1)` evaluated at spatial position `(x, y)`:
NaN-safe sum of the spectral slice `[l, r)` of `s` — the value of the
span-sum image at that position. -/
def spanSumFn (s : Signal) (l r : ℚ) : Nat → Nat → ℚ :=
  fun x y => ((sliceIdx s.axis l r).map (fun k => nval (s.data x y k))).sum

/-- `hs.roi.SpanROI(left, right)`. -/
structure SpanROI where
  left : ℚ
  right : ℚ
deriving DecidableEq, Repr

/-- The interactive spectral slice of the base signal produced by
`hs.interactive(span, signal=sig, ...)`: a live view of `base`
restricted to the span's current range `[left, right)`. -/
structure SpanSig where
  base : Signal
  left : ℚ
  right : ℚ

/-- Plotting / widget / reactive-binding side effects of `plot_span_map`,
in source order: `all_sum.plot()`, `span.add_widget(...)`, the
`hs.interactive` call creating the live slice, `span_sum.plot(cmap=...)`,
and the `hs.interactive` call writing the recomputed sum into `span_sum`. -/
inductive Effect where
  | plotNav : Effect
  | addWidget (i : Nat) (color : String) : Effect
  | bindSlice (i : Nat) : Effect
  | plotSpanSum (i : Nat) (cmap : String) : Effect
  | bindSum (i : Nat) : Effect
deriving DecidableEq, Repr

/-- The fixed palette `colors = ['red', 'green', 'blue']`. -/
def spanColors : List String := ["red", "green", "blue"]

/-- `f'{color.capitalize()}s'`. -/
def cmapName (c : String) : String := c.capitalize ++ "s"

/-- The span created at loop index `i`:
`SpanROI(i * span_width + ax_sig[0], (i + 1) * span_width + ax_sig[0])`. -/
def mkSpan (ax0 w : ℚ) (i : Nat) : SpanROI :=
  ⟨(i : ℚ) * w + ax0, ((i : ℚ) + 1) * w + ax0⟩

/-- The four returned collections of `plot_span_map`. -/
structure SpanMapOutput where
  all_sum : Nat → ℚ
  spans : List SpanROI
  span_sigs : List SpanSig
  span_sums : List (Nat → Nat → ℚ)

/-- The dimensionality error message of `plot_span_map`. -/
def dimErrMsg (sig_dims nav_dims : Nat) : String :=
  "This method is designed for data with 1 signal and 2 navigation dimensions, not "
    ++ toString sig_dims ++ " and " ++ toString nav_dims ++ " respectively"

/-- `ax_sig[0]`: first element of the spectral coordinate array. -/
def ax0Of (sig : Signal) : ℚ := sig.axis.getD 0 0

/-- `ax_sig_range = ax_sig[-1] - ax_sig[0]`: last minus first element. -/
def axRangeOf (sig : Signal) : ℚ :=
  sig.axis.getD (sig.axis.length - 1) 0 - ax0Of sig

/-- `span_width = ax_sig_range / (2 * nspans)`. -/
def spanWidthOf (sig : Signal) (nspans : Int) : ℚ :=
  axRangeOf sig / (2 * (nspans : ℚ))

/-- Embedding of `plot_span_map(sig, nspans)`.  Returns the effect log
(plot and widget calls, in program order) and either the error message of
the raised `ValueError` or the returned quadruple.  The `for` loop over
`range(nspans)` is translated as maps over `List.range nspans.toNat`
(python's `range` of a non-positive number is empty).  Division of
rationals by zero yields `0` where numpy yields `inf`; `span_width` is
used only inside the loop, which is empty whenever `nspans ≤ 0`. -/
def plot_span_map (sig : Signal) (nspans : Int) :
    List Effect × Except String SpanMapOutput :=
  if 3 < nspans then
    ([], Except.error "Maximum number of spans allowed is 3")
  else if sig.signal_dimension ≠ 1 ∨ sig.navigation_dimension ≠ 2 then
    ([], Except.error (dimErrMsg sig.signal_dimension sig.navigation_dimension))
  else
    let ax0 := ax0Of sig
    let span_width := spanWidthOf sig nspans
    let all_sum := nansumNav sig
    let n := nspans.toNat
    let spans := (List.range n).map (mkSpan ax0 span_width)
    let span_sigs := spans.map (fun s => SpanSig.mk sig s.left s.right)
    let span_sums := spans.map (fun s => spanSumFn sig s.left s.right)
    let effs := Effect.plotNav ::
      ((List.range n).map (fun i =>
        [Effect.addWidget i (spanColors.getD i ""),
         Effect.bindSlice i,
         Effect.plotSpanSum i (cmapName (spanColors.getD i "")),
         Effect.bindSum i])).flatten
    (effs, Except.ok ⟨all_sum, spans, span_sigs, span_sums⟩)

/-- The live state after `plot_span_map` returns: the base signal, the
current span ranges, the live slices and the span-sum images kept up to
date by the registered reactive bindings. -/
structure SpanMapState where
  sig : Signal
  spans : List SpanROI
  span_sigs : List SpanSig
  span_sums : List (Nat → Nat → ℚ)

/-- The state immediately after a call of `plot_span_map` (empty span
lists when the call raised). -/
def spanMapInit (sig : Signal) (nspans : Int) : SpanMapState :=
  match (plot_span_map sig nspans).2 with
  | Except.ok o => ⟨sig, o.spans, o.span_sigs, o.span_sums⟩
  | Except.error _ => ⟨sig, [], [], []⟩

/-- A change of span `i`'s range to `[l, r)` and the reactive updates it
triggers: `span.events.changed` re-slices `span_sigs[i]`, whose
`any_axis_changed` event recomputes the NaN-safe spectral sum into the
existing image `span_sums[i]` (in place: the entry at index `i` is
overwritten, every other entry is untouched). -/
def setSpanRange (st : SpanMapState) (i : Nat) (l r : ℚ) : SpanMapState :=
  { st with
    spans := st.spans.set i ⟨l, r⟩
    span_sigs := st.span_sigs.set i ⟨st.sig, l, r⟩
    span_sums := st.span_sums.set i (spanSumFn st.sig l r) }

/-- Apply a sequence of span-range changes in order. -/
def applyChanges (st : SpanMapState) (cs : List (Nat × ℚ × ℚ)) : SpanMapState :=
  cs.foldl (fun s c => setSpanRange s c.1 c.2.1 c.2.2) st

/-- The span-map invariant: for every span index `i`, the live slice
`span_sigs[i]` wraps the base signal and holds exactly `spans[i]`'s
current range, and the span-sum image `span_sums[i]` equals the NaN-safe
sum of the base signal over `span_sigs[i]`'s current spectral sub-range,
evaluated independently at every spatial position. -/
def SpanMapInv (st : SpanMapState) : Prop :=
  st.spans.length = st.span_sums.length ∧
  st.spans.length = st.span_sigs.length ∧
  ∀ i, i < st.spans.length →
    (st.span_sigs.getD i ⟨st.sig, 0, 0⟩).base = st.sig ∧
    (st.span_sigs.getD i ⟨st.sig, 0, 0⟩).left = (st.spans.getD i ⟨0, 0⟩).left ∧
    (st.span_sigs.getD i ⟨st.sig, 0, 0⟩).right
      = (st.spans.getD i ⟨0, 0⟩).right ∧
    ∀ x y, (st.span_sums.getD i (fun _ _ => 0)) x y =
      spanSumFn st.sig (st.span_sigs.getD i ⟨st.sig, 0, 0⟩).left
        (st.span_sigs.getD i ⟨st.sig, 0, 0⟩).right x y

/-- The span list returned by a call (empty when the call raised). -/
def spansOf (sig : Signal) (nspans : Int) : List SpanROI :=
  match (plot_span_map sig nspans).2 with
  | Except.ok o => o.spans
  | Except.error _ => []

/-- The error message raised by a call, if any. -/
def errOf (sig : Signal) (nspans : Int) : Option String :=
  match (plot_span_map sig nspans).2 with
  | Except.ok _ => none
  | Except.error e => some e

/-- Span ranges as the spec's words state them: `min` is the minimum of
the coordinate array, `extent = max - min`, span `i` covers
`[min + i*extent/(2*nspans), min + (i+1)*extent/(2*nspans))`. -/
def specSpanRange (axis : List ℚ) (nspans : Int) (i : Nat) : SpanROI :=
  let lo := (axis.min?).getD 0
  let hi := (axis.max?).getD 0
  let w := (hi - lo) / (2 * (nspans : ℚ))
  ⟨lo + (i : ℚ) * w, lo + ((i : ℚ) + 1) * w⟩

/-- A small concrete valid signal: 2×2 navigation, spectral axis
`[0, 1, 2, 3]`, one NaN sample. -/
def testSig : Signal :=
  { signal_dimension := 1
    navigation_dimension := 2
    navX := 2
    navY := 2
    axis := [0, 1, 2, 3]
    data := fun x y k =>
      if x = 0 ∧ y = 1 ∧ k = 2 then none else some ((x : ℚ) + (y : ℚ) * (k : ℚ)) }

/-- A valid signal whose spectral axis is in decreasing order. -/
def testSigDec : Signal :=
  { signal_dimension := 1
    navigation_dimension := 2
    navX := 1
    navY := 1
    axis := [3, 1]
    data := fun _ _ k => some (k : ℚ) }

/-- A signal with the wrong axis decomposition (image-like: 2 signal
dimensions, 1 navigation dimension). -/
def testSigBadDims : Signal :=
  { signal_dimension := 2
    navigation_dimension := 1
    navX := 2
    navY := 2
    axis := [0, 1, 2, 3]
    data := fun _ _ _ => some 0 }

/-! ## Helper lemmas -/

theorem getD_map_range {α : Type} (f : Nat → α) (n i : Nat) (d : α)
    (hi : i < n) : ((List.range n).map f).getD i d = f i := by
  rw [List.getD_eq_getElem?_getD, List.getElem?_map, List.getElem?_range hi]
  rfl

theorem plot_span_map_valid (sig : Signal) (nspans : Int)
    (h1 : nspans ≤ 3) (h3 : sig.signal_dimension = 1)
    (h4 : sig.navigation_dimension = 2) :
    plot_span_map sig nspans =
      (Effect.plotNav ::
        ((List.range nspans.toNat).map (fun i =>
          [Effect.addWidget i (spanColors.getD i ""),
           Effect.bindSlice i,
           Effect.plotSpanSum i (cmapName (spanColors.getD i "")),
           Effect.bindSum i])).flatten,
       Except.ok
        { all_sum := nansumNav sig
          spans := (List.range nspans.toNat).map
            (mkSpan (ax0Of sig) (spanWidthOf sig nspans))
          span_sigs := ((List.range nspans.toNat).map
            (mkSpan (ax0Of sig) (spanWidthOf sig nspans))).map
              (fun s => SpanSig.mk sig s.left s.right)
          span_sums := ((List.range nspans.toNat).map
            (mkSpan (ax0Of sig) (spanWidthOf sig nspans))).map
              (fun s => spanSumFn sig s.left s.right) }) := by
  rw [plot_span_map, if_neg (not_lt.2 h1), if_neg (by simp [h3, h4])]

theorem spansOf_valid (sig : Signal) (nspans : Int)
    (h1 : nspans ≤ 3) (h3 : sig.signal_dimension = 1)
    (h4 : sig.navigation_dimension = 2) :
    spansOf sig nspans = (List.range nspans.toNat).map
      (mkSpan (ax0Of sig) (spanWidthOf sig nspans)) := by
  rw [spansOf, plot_span_map_valid sig nspans h1 h3 h4]

theorem getD_set_self {α : Type} (l : List α) (i : Nat) (a d : α)
    (hi : i < l.length) : (l.set i a).getD i d = a := by
  rw [List.getD_eq_getElem?_getD, List.getElem?_set_self hi]
  rfl

theorem getD_set_ne {α : Type} (l : List α) (i j : Nat) (a d : α)
    (hij : i ≠ j) : (l.set i a).getD j d = l.getD j d := by
  rw [List.getD_eq_getElem?_getD, List.getElem?_set_ne hij,
    List.getD_eq_getElem?_getD]

theorem spanMapInit_valid (sig : Signal) (nspans : Int)
    (h1 : nspans ≤ 3) (h3 : sig.signal_dimension = 1)
    (h4 : sig.navigation_dimension = 2) :
    spanMapInit sig nspans =
      { sig := sig
        spans := (List.range nspans.toNat).map
          (mkSpan (ax0Of sig) (spanWidthOf sig nspans))
        span_sigs := ((List.range nspans.toNat).map
          (mkSpan (ax0Of sig) (spanWidthOf sig nspans))).map
            (fun s => SpanSig.mk sig s.left s.right)
        span_sums := ((List.range nspans.toNat).map
          (mkSpan (ax0Of sig) (spanWidthOf sig nspans))).map
            (fun s => spanSumFn sig s.left s.right) } := by
  rw [spanMapInit, plot_span_map_valid sig nspans h1 h3 h4]

theorem SpanMapInv_set (st : SpanMapState) (i : Nat) (l r : ℚ)
    (h : SpanMapInv st) : SpanMapInv (setSpanRange st i l r) := by
  obtain ⟨hlen, hlen2, hinv⟩ := h
  refine ⟨by simp [setSpanRange, hlen], by simp [setSpanRange, hlen2], ?_⟩
  intro j hj
  simp only [setSpanRange] at hj ⊢
  have hj' : j < st.spans.length := by simpa using hj
  by_cases hij : i = j
  · subst hij
    rw [getD_set_self _ _ _ _ (hlen2 ▸ hj'), getD_set_self _ _ _ _ hj',
      getD_set_self _ _ _ _ (hlen ▸ hj')]
    exact ⟨rfl, rfl, rfl, fun x y => rfl⟩
  · rw [getD_set_ne _ _ _ _ _ hij, getD_set_ne _ _ _ _ _ hij,
      getD_set_ne _ _ _ _ _ hij]
    exact hinv j hj'

theorem SpanMapInv_applyChanges (st : SpanMapState)
    (cs : List (Nat × ℚ × ℚ)) (h : SpanMapInv st) :
    SpanMapInv (applyChanges st cs) := by
  induction cs generalizing st with
  | nil => exact h
  | cons c cs ih => exact ih _ (SpanMapInv_set _ _ _ _ h)

theorem SpanMapInv_init (sig : Signal) (nspans : Int) :
    SpanMapInv (spanMapInit sig nspans) := by
  by_cases h1 : 3 < nspans
  · rw [spanMapInit, plot_span_map, if_pos h1]
    exact ⟨rfl, rfl, fun i hi => absurd hi (by simp)⟩
  · by_cases h2 : sig.signal_dimension ≠ 1 ∨ sig.navigation_dimension ≠ 2
    · rw [spanMapInit, plot_span_map, if_neg h1, if_pos h2]
      exact ⟨rfl, rfl, fun i hi => absurd hi (by simp)⟩
    · push_neg at h2
      rw [spanMapInit_valid sig nspans (not_lt.1 h1) h2.1 h2.2]
      refine ⟨by simp, by simp, ?_⟩
      intro i hi
      simp only [List.length_map, List.length_range] at hi
      simp only [List.map_map]
      rw [getD_map_range _ _ _ _ hi, getD_map_range _ _ _ _ hi,
        getD_map_range _ _ _ _ hi]
      exact ⟨rfl, rfl, rfl, fun x y => rfl⟩

/-! ## Claim theorems -/

/-- C1: for every span index `i`, `span_sums[i]` always equals the
NaN-safe sum of `sig` over `span_sigs[i]`'s current spectral sub-range,
evaluated independently at every spatial position; the invariant holds
after the call and after any sequence of span-range changes, and a
change to span `i` rewrites only entry `i` of the existing span-sum
collection in place (entry `j ≠ i` and the collection's length are
untouched). -/
theorem C1_span_sum_invariant (sig : Signal) (nspans : Int)
    (cs : List (Nat × ℚ × ℚ)) (i j : Nat) (l r : ℚ) (hj : j ≠ i) :
    SpanMapInv (applyChanges (spanMapInit sig nspans) cs) ∧
    (setSpanRange (applyChanges (spanMapInit sig nspans) cs) i l r).span_sums.getD
        j (fun _ _ => 0)
      = (applyChanges (spanMapInit sig nspans) cs).span_sums.getD j (fun _ _ => 0) ∧
    (setSpanRange (applyChanges (spanMapInit sig nspans) cs) i l r).span_sums.length
      = (applyChanges (spanMapInit sig nspans) cs).span_sums.length := by
  refine ⟨SpanMapInv_applyChanges _ _ (SpanMapInv_init sig nspans), ?_, ?_⟩
  · exact getD_set_ne _ _ _ _ _ (fun hij => hj hij.symm)
  · simp [setSpanRange]

theorem C1_span_sum_invariant_witness :
    SpanMapInv (applyChanges (spanMapInit testSig 2) [(0, (1 : ℚ), 3)]) ∧
    (setSpanRange (applyChanges (spanMapInit testSig 2) [(0, (1 : ℚ), 3)])
        0 1 3).span_sums.getD 1 (fun _ _ => 0)
      = (applyChanges (spanMapInit testSig 2) [(0, (1 : ℚ), 3)]).span_sums.getD
          1 (fun _ _ => 0) ∧
    (setSpanRange (applyChanges (spanMapInit testSig 2) [(0, (1 : ℚ), 3)])
        0 1 3).span_sums.length
      = (applyChanges (spanMapInit testSig 2) [(0, (1 : ℚ), 3)]).span_sums.length :=
  C1_span_sum_invariant testSig 2 [(0, 1, 3)] 0 1 1 3 (by decide)

/-- C3 counterexample: at `nspans = 4` (with a signal that also has the
wrong dimensionality, so both validations are violated) the raised
message is `"Maximum number of spans allowed is 3"`, capitalized — not
the claimed `"maximum number of spans allowed is 3"`. -/
theorem C3_counterexample :
    errOf testSigBadDims 4 = some "Maximum number of spans allowed is 3" ∧
    errOf testSigBadDims 4 ≠ some "maximum number of spans allowed is 3" := by
  exact ⟨by rfl, by decide⟩

/-- C3 (amended): for every `nspans > 3`, `plot_span_map` fails with the
invalid-argument message `"Maximum number of spans allowed is 3"` with
no side effects, regardless of the signal's dimensionality — the
span-count check precedes the dimensionality check, so an input
violating both reports the span-count error. -/
theorem C3_span_count_check_first (sig : Signal) (nspans : Int)
    (h : 3 < nspans) :
    plot_span_map sig nspans =
      ([], Except.error "Maximum number of spans allowed is 3") := by
  rw [plot_span_map, if_pos h]

theorem C3_span_count_check_first_witness :
    plot_span_map testSigBadDims 4 =
      ([], Except.error "Maximum number of spans allowed is 3") :=
  C3_span_count_check_first testSigBadDims 4 (by decide)

/-- C4: for every `nspans ≤ 3` and every signal whose signal dimension
is not 1 or whose navigation dimension is not 2, `plot_span_map` fails
with an invalid-argument error whose message reports the actual signal
and navigation dimensions found. -/
theorem C4_dim_error (sig : Signal) (nspans : Int) (h1 : nspans ≤ 3)
    (h2 : sig.signal_dimension ≠ 1 ∨ sig.navigation_dimension ≠ 2) :
    plot_span_map sig nspans =
      ([], Except.error
        ("This method is designed for data with 1 signal and 2 navigation dimensions, not "
          ++ toString sig.signal_dimension ++ " and "
          ++ toString sig.navigation_dimension ++ " respectively")) := by
  rw [plot_span_map, if_neg (not_lt.2 h1), if_pos h2]
  rfl

theorem C4_dim_error_witness :
    plot_span_map testSigBadDims 1 =
      ([], Except.error
        ("This method is designed for data with 1 signal and 2 navigation dimensions, not "
          ++ toString testSigBadDims.signal_dimension ++ " and "
          ++ toString testSigBadDims.navigation_dimension ++ " respectively")) :=
  C4_dim_error testSigBadDims 1 (by decide) (by decide)

/-- C8: whenever either validation fails, the call aborts with no
partial side effects: the effect log is empty (no plot opened, no widget
added, no reactive binding registered), the result is an error, no span
is created, and the post-call state is the unchanged input signal with
empty span collections. -/
theorem C8_no_partial_effects (sig : Signal) (nspans : Int)
    (h : 3 < nspans ∨ sig.signal_dimension ≠ 1 ∨ sig.navigation_dimension ≠ 2) :
    (plot_span_map sig nspans).1 = [] ∧
    (∃ e, (plot_span_map sig nspans).2 = Except.error e) ∧
    spansOf sig nspans = [] ∧
    spanMapInit sig nspans = ⟨sig, [], [], []⟩ := by
  have key : ∃ e, plot_span_map sig nspans = ([], Except.error e) := by
    by_cases h1 : 3 < nspans
    · exact ⟨_, by rw [plot_span_map, if_pos h1]⟩
    · rcases h with hA | hBC
      · exact absurd hA h1
      · exact ⟨_, by rw [plot_span_map, if_neg h1, if_pos hBC]⟩
  obtain ⟨e, he⟩ := key
  refine ⟨by rw [he], ⟨e, by rw [he]⟩, ?_, ?_⟩
  · rw [spansOf, he]
  · rw [spanMapInit, he]

theorem C8_no_partial_effects_witness :
    (plot_span_map testSig 7).1 = [] ∧
    (∃ e, (plot_span_map testSig 7).2 = Except.error e) ∧
    spansOf testSig 7 = [] ∧
    spanMapInit testSig 7 = ⟨testSig, [], [], []⟩ :=
  C8_no_partial_effects testSig 7 (Or.inl (by decide))

/-- C10: the span-count error fires only for `nspans > 3`; for every
`nspans ≤ 0` (with a validly-shaped signal) `plot_span_map` raises no
error, the per-span loop runs zero times so all three returned span
collections are empty, yet the navigator is still computed (the NaN-safe
sum over both navigation axes) and plotted. -/
theorem C10_nonpositive_nspans (sig : Signal) (nspans : Int)
    (h3 : sig.signal_dimension = 1) (h4 : sig.navigation_dimension = 2)
    (h : nspans ≤ 0) :
    plot_span_map sig nspans =
      ([Effect.plotNav], Except.ok ⟨nansumNav sig, [], [], []⟩) := by
  have h0 : nspans.toNat = 0 := Int.toNat_of_nonpos h
  rw [plot_span_map_valid sig nspans (le_trans h (by norm_num)) h3 h4, h0]
  rfl

theorem C10_nonpositive_nspans_witness :
    plot_span_map testSig (-2) =
      ([Effect.plotNav], Except.ok ⟨nansumNav testSig, [], [], []⟩) :=
  C10_nonpositive_nspans testSig (-2) (by decide) (by decide) (by decide)

/-- C2 counterexample: on a valid signal whose spectral coordinate array
is descending (`[3, 1]`), the code builds span 0 from the FIRST element
`3` and the signed difference `1 - 3`, giving `SpanROI(3, 2)` — not the
`[min, min + extent/(2·nspans)) = [1, 2)` required by the claim's
min/max reading. -/
theorem C2_counterexample :
    spansOf testSigDec 1 = [⟨3, 2⟩] ∧
    specSpanRange testSigDec.axis 1 0 = ⟨1, 2⟩ ∧
    spansOf testSigDec 1 ≠ [specSpanRange testSigDec.axis 1 0] := by
  have hA : spansOf testSigDec 1 = [⟨3, 2⟩] := by
    rw [spansOf_valid testSigDec 1 (by decide) rfl rfl]
    simp only [Int.toNat_one, List.range_succ, List.range_zero, List.nil_append,
      List.map_cons, List.map_nil, mkSpan, ax0Of, spanWidthOf, axRangeOf,
      testSigDec]
    norm_num
  have hB : specSpanRange testSigDec.axis 1 0 = ⟨1, 2⟩ := by
    simp only [specSpanRange, testSigDec, SpanROI.mk.injEq]
    norm_num [List.min?, List.max?]
  refine ⟨hA, hB, ?_⟩
  rw [hA, hB]
  intro h
  have := List.head_eq_of_cons_eq h
  rw [SpanROI.mk.injEq] at this
  norm_num at this

/-- C2 (amended): for every valid signal and `nspans ∈ {1,2,3}`, span
`i`'s initial range is `[a0 + i*w, a0 + (i+1)*w)` where `a0` is the
first element of the spectral coordinate array, `d` is the last element
minus the first, and `w = d / (2*nspans)` (for an ascending axis, `a0`
is the minimum and `d` the extent, as the claim reads); the `nspans`
ranges are contiguous, of equal signed width `w`, start at `a0`, the
last ends at `a0 + d/2`, and when `d > 0` they are non-overlapping. -/
theorem C2_span_ranges (sig : Signal) (nspans : Int) (i : Nat)
    (h1 : 1 ≤ nspans) (h2 : nspans ≤ 3) (h3 : sig.signal_dimension = 1)
    (h4 : sig.navigation_dimension = 2) (hi : i < nspans.toNat) :
    (spansOf sig nspans).length = nspans.toNat ∧
    (spansOf sig nspans).getD i ⟨0, 0⟩ =
      ⟨ax0Of sig + (i : ℚ) * spanWidthOf sig nspans,
       ax0Of sig + ((i : ℚ) + 1) * spanWidthOf sig nspans⟩ ∧
    ((spansOf sig nspans).getD i ⟨0, 0⟩).right
        - ((spansOf sig nspans).getD i ⟨0, 0⟩).left = spanWidthOf sig nspans ∧
    (i + 1 < nspans.toNat →
      ((spansOf sig nspans).getD (i + 1) ⟨0, 0⟩).left
        = ((spansOf sig nspans).getD i ⟨0, 0⟩).right) ∧
    ((spansOf sig nspans).getD 0 ⟨0, 0⟩).left = ax0Of sig ∧
    ((spansOf sig nspans).getD (nspans.toNat - 1) ⟨0, 0⟩).right
        = ax0Of sig + axRangeOf sig / 2 ∧
    (0 < axRangeOf sig → ∀ j, j < i →
      ((spansOf sig nspans).getD j ⟨0, 0⟩).right
        ≤ ((spansOf sig nspans).getD i ⟨0, 0⟩).left) := by
  rw [spansOf_valid sig nspans h2 h3 h4]
  have h0 : 0 < nspans.toNat := by omega
  have hn1 : nspans.toNat - 1 < nspans.toNat := by omega
  have hcast : ((nspans.toNat : ℕ) : ℚ) = ((nspans : ℤ) : ℚ) := by
    exact_mod_cast congrArg (fun z : ℤ => (z : ℚ))
      (Int.toNat_of_nonneg (by omega : (0 : ℤ) ≤ nspans))
  have hpos : (0 : ℚ) < ((nspans : ℤ) : ℚ) := by
    exact_mod_cast (by omega : (0 : ℤ) < nspans)
  refine ⟨by simp, ?_, ?_, ?_, ?_, ?_, ?_⟩
  · rw [getD_map_range _ _ _ _ hi]
    simp only [mkSpan, SpanROI.mk.injEq]
    constructor <;> ring
  · rw [getD_map_range _ _ _ _ hi]
    simp only [mkSpan]
    ring
  · intro hi1
    rw [getD_map_range _ _ _ _ hi1, getD_map_range _ _ _ _ hi]
    simp only [mkSpan]
    push_cast
    ring
  · rw [getD_map_range _ _ _ _ h0]
    simp only [mkSpan]
    norm_num
  · rw [getD_map_range _ _ _ _ hn1]
    simp only [mkSpan, spanWidthOf]
    have hsub : ((nspans.toNat - 1 : ℕ) : ℚ) = ((nspans : ℤ) : ℚ) - 1 := by
      rw [Nat.cast_sub h0, hcast, Nat.cast_one]
    rw [hsub]
    field_simp
    ring
  · intro hd j hj
    rw [getD_map_range _ _ _ _ (lt_trans hj hi), getD_map_range _ _ _ _ hi]
    simp only [mkSpan]
    have hw : 0 < spanWidthOf sig nspans := by
      rw [spanWidthOf]
      exact div_pos hd (by linarith)
    have hji : ((j : ℚ) + 1) ≤ (i : ℚ) := by
      exact_mod_cast Nat.succ_le_of_lt hj
    have := mul_le_mul_of_nonneg_right hji hw.le
    linarith

theorem C2_span_ranges_witness :
    (spansOf testSig 2).length = (2 : Int).toNat ∧
    (spansOf testSig 2).getD 1 ⟨0, 0⟩ =
      ⟨ax0Of testSig + ((1 : ℕ) : ℚ) * spanWidthOf testSig 2,
       ax0Of testSig + (((1 : ℕ) : ℚ) + 1) * spanWidthOf testSig 2⟩ ∧
    ((spansOf testSig 2).getD 1 ⟨0, 0⟩).right
        - ((spansOf testSig 2).getD 1 ⟨0, 0⟩).left = spanWidthOf testSig 2 ∧
    (1 + 1 < (2 : Int).toNat →
      ((spansOf testSig 2).getD (1 + 1) ⟨0, 0⟩).left
        = ((spansOf testSig 2).getD 1 ⟨0, 0⟩).right) ∧
    ((spansOf testSig 2).getD 0 ⟨0, 0⟩).left = ax0Of testSig ∧
    ((spansOf testSig 2).getD ((2 : Int).toNat - 1) ⟨0, 0⟩).right
        = ax0Of testSig + axRangeOf testSig / 2 ∧
    (0 < axRangeOf testSig → ∀ j, j < 1 →
      ((spansOf testSig 2).getD j ⟨0, 0⟩).right
        ≤ ((spansOf testSig 2).getD 1 ⟨0, 0⟩).left) :=
  C2_span_ranges testSig 2 1 (by decide) (by decide) (by decide) (by decide)
    (by decide)

/-- C5: for every `nspans ∈ {1,2,3}` and valid signal, `plot_span_map`
returns the quadruple `(all_sum, spans, span_sigs, span_sums)` whose
three span collections each have length `nspans`, in span-index order:
`span_sigs[i]` is the slice of `sig` over exactly `spans[i]`'s range,
and `span_sums[i]` is the NaN-safe spectral sum of `span_sigs[i]`. -/
theorem C5_output_quadruple (sig : Signal) (nspans : Int) (i : Nat)
    (_h1 : 1 ≤ nspans) (h2 : nspans ≤ 3) (h3 : sig.signal_dimension = 1)
    (h4 : sig.navigation_dimension = 2) (hi : i < nspans.toNat) :
    ∃ out : SpanMapOutput, (plot_span_map sig nspans).2 = Except.ok out ∧
      out.spans.length = nspans.toNat ∧
      out.span_sigs.length = nspans.toNat ∧
      out.span_sums.length = nspans.toNat ∧
      out.span_sigs.getD i ⟨sig, 0, 0⟩ =
        ⟨sig, (out.spans.getD i ⟨0, 0⟩).left, (out.spans.getD i ⟨0, 0⟩).right⟩ ∧
      out.span_sums.getD i (fun _ _ => 0) =
        spanSumFn (out.span_sigs.getD i ⟨sig, 0, 0⟩).base
          (out.span_sigs.getD i ⟨sig, 0, 0⟩).left
          (out.span_sigs.getD i ⟨sig, 0, 0⟩).right := by
  rw [plot_span_map_valid sig nspans h2 h3 h4]
  refine ⟨_, rfl, by simp, by simp, by simp, ?_, ?_⟩
  · simp only [List.map_map]
    rw [getD_map_range _ _ _ _ hi, getD_map_range _ _ _ _ hi]
    rfl
  · simp only [List.map_map]
    rw [getD_map_range _ _ _ _ hi, getD_map_range _ _ _ _ hi]
    rfl

theorem C5_output_quadruple_witness :
    ∃ out : SpanMapOutput, (plot_span_map testSig 3).2 = Except.ok out ∧
      out.spans.length = (3 : Int).toNat ∧
      out.span_sigs.length = (3 : Int).toNat ∧
      out.span_sums.length = (3 : Int).toNat ∧
      out.span_sigs.getD 2 ⟨testSig, 0, 0⟩ =
        ⟨testSig, (out.spans.getD 2 ⟨0, 0⟩).left,
          (out.spans.getD 2 ⟨0, 0⟩).right⟩ ∧
      out.span_sums.getD 2 (fun _ _ => 0) =
        spanSumFn (out.span_sigs.getD 2 ⟨testSig, 0, 0⟩).base
          (out.span_sigs.getD 2 ⟨testSig, 0, 0⟩).left
          (out.span_sigs.getD 2 ⟨testSig, 0, 0⟩).right :=
  C5_output_quadruple testSig 3 2 (by decide) (by decide) (by decide)
    (by decide) (by decide)

/-- C6: for every valid signal the returned `all_sum` is the NaN-safe
sum of `sig` over both navigation axes — every `none` (NaN) sample
contributes `0` — projected onto the spectral axis, and it is the same
for any two admissible values of `nspans`. -/
theorem C6_all_sum (sig : Signal) (nspans m : Int)
    (h1 : nspans ≤ 3) (h2 : m ≤ 3) (h3 : sig.signal_dimension = 1)
    (h4 : sig.navigation_dimension = 2) :
    ∃ out out2 : SpanMapOutput,
      (plot_span_map sig nspans).2 = Except.ok out ∧
      (plot_span_map sig m).2 = Except.ok out2 ∧
      (∀ k, out.all_sum k =
        ((List.range sig.navX).map (fun x =>
          ((List.range sig.navY).map
            (fun y => (sig.data x y k).getD 0)).sum)).sum) ∧
      out2.all_sum = out.all_sum := by
  rw [plot_span_map_valid sig nspans h1 h3 h4,
    plot_span_map_valid sig m h2 h3 h4]
  exact ⟨_, _, rfl, rfl, fun k => rfl, rfl⟩

theorem C6_all_sum_witness :
    ∃ out out2 : SpanMapOutput,
      (plot_span_map testSig 1).2 = Except.ok out ∧
      (plot_span_map testSig 3).2 = Except.ok out2 ∧
      (∀ k, out.all_sum k =
        ((List.range testSig.navX).map (fun x =>
          ((List.range testSig.navY).map
            (fun y => (testSig.data x y k).getD 0)).sum)).sum) ∧
      out2.all_sum = out.all_sum :=
  C6_all_sum testSig 1 3 (by decide) (by decide) (by decide) (by decide)

/-- C7: every span `i` gets the `i % 3`-th color of the fixed palette
`red, green, blue` as its widget color (the loop indexes the palette
directly, which coincides with cycling since `i < 3` always), and its
span-sum image is plotted with the colormap obtained by capitalizing
that color name and appending `"s"` — `"Reds"`, `"Greens"`, `"Blues"`
for spans 0, 1, 2. -/
theorem C7_colors (sig : Signal) (nspans : Int) (i : Nat)
    (h2 : nspans ≤ 3) (h3 : sig.signal_dimension = 1)
    (h4 : sig.navigation_dimension = 2) (hi : i < nspans.toNat) :
    Effect.addWidget i (spanColors.getD (i % 3) "")
        ∈ (plot_span_map sig nspans).1 ∧
    Effect.plotSpanSum i (cmapName (spanColors.getD (i % 3) ""))
        ∈ (plot_span_map sig nspans).1 ∧
    cmapName (spanColors.getD 0 "") = "Reds" ∧
    cmapName (spanColors.getD 1 "") = "Greens" ∧
    cmapName (spanColors.getD 2 "") = "Blues" := by
  have hi3 : i < 3 := by omega
  have him : i % 3 = i := Nat.mod_eq_of_lt hi3
  rw [plot_span_map_valid sig nspans h2 h3 h4, him]
  refine ⟨?_, ?_, rfl, rfl, rfl⟩
  · exact List.mem_cons_of_mem _ (List.mem_flatten.2
      ⟨_, List.mem_map.2 ⟨i, List.mem_range.2 hi, rfl⟩, by simp⟩)
  · exact List.mem_cons_of_mem _ (List.mem_flatten.2
      ⟨_, List.mem_map.2 ⟨i, List.mem_range.2 hi, rfl⟩, by simp⟩)

theorem C7_colors_witness :
    Effect.addWidget 1 (spanColors.getD (1 % 3) "")
        ∈ (plot_span_map testSig 2).1 ∧
    Effect.plotSpanSum 1 (cmapName (spanColors.getD (1 % 3) ""))
        ∈ (plot_span_map testSig 2).1 ∧
    cmapName (spanColors.getD 0 "") = "Reds" ∧
    cmapName (spanColors.getD 1 "") = "Greens" ∧
    cmapName (spanColors.getD 2 "") = "Blues" :=
  C7_colors testSig 2 1 (by decide) (by decide) (by decide) (by decide)

theorem applyChanges_sig (st : SpanMapState) (cs : List (Nat × ℚ × ℚ)) :
    (applyChanges st cs).sig = st.sig := by
  induction cs generalizing st with
  | nil => rfl
  | cons c cs ih => exact ih (setSpanRange st c.1 c.2.1 c.2.2)

theorem applyChanges_bases (sig : Signal) (st : SpanMapState)
    (cs : List (Nat × ℚ × ℚ)) (hsig : st.sig = sig)
    (h : ∀ s ∈ st.span_sigs, s.base = sig) :
    ∀ s ∈ (applyChanges st cs).span_sigs, s.base = sig := by
  induction cs generalizing st with
  | nil => exact h
  | cons c cs ih =>
    refine ih (setSpanRange st c.1 c.2.1 c.2.2) hsig ?_
    intro s hs
    rcases List.mem_or_eq_of_mem_set hs with hmem | heq
    · exact h s hmem
    · rw [heq]
      exact hsig

theorem spanMapInit_bases (sig : Signal) (nspans : Int) :
    ∀ s ∈ (spanMapInit sig nspans).span_sigs, s.base = sig := by
  by_cases h1 : 3 < nspans
  · rw [spanMapInit, plot_span_map, if_pos h1]
    intro s hs
    simp at hs
  · by_cases hA : sig.signal_dimension ≠ 1 ∨ sig.navigation_dimension ≠ 2
    · rw [spanMapInit, plot_span_map, if_neg h1, if_pos hA]
      intro s hs
      simp at hs
    · push_neg at hA
      rw [spanMapInit_valid sig nspans (not_lt.1 h1) hA.1 hA.2]
      intro s hs
      simp only [List.mem_map] at hs
      obtain ⟨sp, hsp, hdef⟩ := hs
      rw [← hdef]

/-- C9: `plot_span_map` never structurally mutates the input signal:
after any call (succeeding or failing) and any sequence of span-range
changes, the state's signal is the very input, and every live slice
merely wraps that same base signal. -/
theorem C9_sig_not_mutated (sig : Signal) (nspans : Int)
    (cs : List (Nat × ℚ × ℚ)) (i : Nat) :
    (applyChanges (spanMapInit sig nspans) cs).sig = sig ∧
    ((applyChanges (spanMapInit sig nspans) cs).span_sigs.getD i
      ⟨sig, 0, 0⟩).base = sig := by
  have hsig : (spanMapInit sig nspans).sig = sig := by
    rw [spanMapInit]
    cases (plot_span_map sig nspans).2 <;> rfl
  have hall := applyChanges_bases sig (spanMapInit sig nspans) cs hsig
    (spanMapInit_bases sig nspans)
  refine ⟨(applyChanges_sig _ _).trans hsig, ?_⟩
  rw [List.getD_eq_getElem?_getD]
  cases he : (applyChanges (spanMapInit sig nspans) cs).span_sigs[i]? with
  | none => rfl
  | some s => exact hall s (List.getElem?_mem he)
